import Mathlib

/-!
Shallow embedding of the KILOS NTL-detection core
(`model/feature_engineering.py`, `model/ntl_detector.py`, `app.py`,
`utils/sample_data.py`).

Numbers are modelled as rationals.  The two operations of the Python code
that are not rational-valued or not deterministic are passed in as explicit
parameters:
* `sq : ℚ → ℚ` models `numpy`'s floating-point square root (used only by
  `np.std` inside the consumption feature block);
* `h : String → ℤ` models Python's process-seeded string `hash` (used only
  by the business-category encoding).
All verified properties hold for every choice of these parameters.
-/

/-! ### List helpers mirroring the numpy primitives used by the source -/

/-- `np.mean` on a list (division by zero yields 0 in ℚ; the source only
takes means of provably nonempty slices). -/
def listMean (xs : List ℚ) : ℚ := xs.sum / xs.length

/-- Python slice `xs[-n:]` — the last `n` elements. -/
def lastN (n : ℕ) (xs : List ℚ) : List ℚ := xs.drop (xs.length - n)

/-- Python slice `xs[:-n]` — all but the last `n` elements. -/
def dropLastN (n : ℕ) (xs : List ℚ) : List ℚ := xs.take (xs.length - n)

/-- `np.min` of a nonempty list (0 on the empty list, never reached). -/
def listMin (xs : List ℚ) : ℚ :=
  match xs with
  | [] => 0
  | x :: t => t.foldl min x

/-- `np.max` of a nonempty list (0 on the empty list, never reached). -/
def listMax (xs : List ℚ) : ℚ :=
  match xs with
  | [] => 0
  | x :: t => t.foldl max x

/-- `np.median`: middle element of the sorted list, or the average of the
two middle elements when the length is even. -/
def listMedian (xs : List ℚ) : ℚ :=
  let s := List.insertionSort (· ≤ ·) xs
  let n := xs.length
  if n % 2 = 1 then s.getD (n / 2) 0
  else (s.getD (n / 2 - 1) 0 + s.getD (n / 2) 0) / 2

/-- Slope of the degree-1 least-squares fit of `ys` against
`x = 0, 1, …, n-1`, the closed form of
`np.polyfit(np.arange(len(ys)), ys, 1)[0]`. -/
def polyfitSlope (ys : List ℚ) : ℚ :=
  let n : ℚ := ys.length
  let xs : List ℚ := (List.range ys.length).map (fun i => (i : ℚ))
  let sx := xs.sum
  let sy := ys.sum
  let sxy := (List.zipWith (· * ·) xs ys).sum
  let sxx := (xs.map (fun x => x * x)).sum
  (n * sxy - sx * sy) / (n * sxx - sx * sx)

/-- The max-single-step-percentage-drop loop of `_consumption_features`
(lines 100–103): for each consecutive pair, `(prev - cur)/prev` when
`prev > 0` else 0, folded with `max` starting from 0. -/
def maxDrop (xs : List ℚ) : ℚ :=
  (List.zipWith (fun prev cur => if prev > 0 then (prev - cur) / prev else 0)
    xs (xs.drop 1)).foldl max 0

/-- Population variance, `np.mean((x - x.mean())**2)`; `np.std` is the
square root of this, taken through the `sq` parameter. -/
def listVariance (xs : List ℚ) : ℚ :=
  let m := listMean xs
  listMean (xs.map (fun x => (x - m) * (x - m)))

/-! ### Data model (`CustomerRecord`, AMI telemetry bundle) -/

/-- A present (truthy) AMI telemetry dict; each field is optional with the
defaults applied at the `dict.get` sites of the source. An absent bundle
(`None` or the empty dict, both falsy in Python) is `Option.none` at the
use sites. -/
structure AmiData where
  tamper_alerts : Option ℚ
  voltage_reading : Option ℚ
  power_factor : Option ℚ
  phase_imbalance : Option ℚ
deriving DecidableEq

/-- One customer record, per the data model of the service (consumption
readings are a numeric list when present). -/
structure CustomerRecord where
  customer_id : String
  consumption_history : Option (List ℚ)
  ami_data : Option AmiData
  customer_type : Option String
  business_category : Option String
  latitude : Option ℚ
  longitude : Option ℚ
  transformer_id : String
deriving DecidableEq

/-! ### FeatureEngineer (`feature_engineering.py`) -/

/-- `_consumption_features` (lines 72–135): the 15-field temporal block,
computed only for sequences of length ≥ 12. `sq` stands for the float
square root used by `np.std`. -/
def consumption_features (sq : ℚ → ℚ) (consumption : List ℚ) : List ℚ :=
  let mean_consumption := listMean consumption
  let std_consumption := sq (listVariance consumption)
  let median_consumption := listMedian consumption
  let slope := polyfitSlope consumption
  let recent_avg := listMean (lastN 3 consumption)
  let historical_avg := listMean (dropLastN 3 consumption)
  let recent_ratio := if historical_avg > 0 then recent_avg / historical_avg else 1
  let max_drop := maxDrop consumption
  let cv := if mean_consumption > 0 then std_consumption / mean_consumption else 0
  let mom := List.zipWith (fun a b => a - b) (consumption.drop 1) consumption
  let mom_mean := listMean mom
  let mom_std := sq (listVariance mom)
  let z_score_recent :=
    if std_consumption > 0 then (recent_avg - mean_consumption) / std_consumption else 0
  let zero_months := (consumption.countP (fun x => decide (x = 0)) : ℚ) / consumption.length
  [mean_consumption, std_consumption, median_consumption, slope, recent_ratio,
   max_drop, cv, mom_mean, mom_std, z_score_recent, zero_months,
   recent_avg, historical_avg, listMin consumption, listMax consumption]

/-- `_ami_features` (lines 137–169): 6-field telemetry block.  When the
bundle is absent (falsy) the fixed default `[0, 220, 220, 220, 0.95, 0]`
is returned; when present, min/max are derived as ±5% of the (defaulted)
voltage reading. -/
def ami_features (ami : Option AmiData) : List ℚ :=
  match ami with
  | none => [0, 220, 220, 220, 19/20, 0]
  | some a =>
    let tamper_alerts := a.tamper_alerts.getD 0
    let voltage := a.voltage_reading.getD 220
    let voltage_avg := voltage
    let voltage_min := voltage * (19/20)
    let voltage_max := voltage * (21/20)
    let power_factor := a.power_factor.getD (19/20)
    let phase_imbalance := a.phase_imbalance.getD 0
    [tamper_alerts, voltage_avg, voltage_min, voltage_max, power_factor, phase_imbalance]

/-- `_profile_features` (lines 171–199): one-hot customer class, hashed
business category mod 100, constant account age 24.  `h` models Python's
string `hash`; Python `%` on a positive modulus is `Int.emod`. -/
def profile_features (h : String → ℤ) (r : CustomerRecord) : List ℚ :=
  let customer_type := r.customer_type.getD "residential"
  let type_residential : ℚ := if customer_type = "residential" then 1 else 0
  let type_commercial : ℚ := if customer_type = "commercial" then 1 else 0
  let type_industrial : ℚ := if customer_type = "industrial" then 1 else 0
  let business_category := r.business_category.getD "none"
  let category_encoded : ℚ := ((h business_category) % 100 : ℤ)
  let account_age : ℚ := 24
  [type_residential, type_commercial, type_industrial, category_encoded, account_age]

/-- `_geospatial_features` (lines 201–230): normalized coordinates with
Manila defaults, constant transformer distance 50 and density 15. -/
def geospatial_features (r : CustomerRecord) : List ℚ :=
  let lat := r.latitude.getD (145995/10000)
  let lon := r.longitude.getD (1209842/10000)
  let lat_normalized := (lat - 14) / 7
  let lon_normalized := (lon - 120) / 7
  let distance_from_transformer : ℚ := 50
  let density_score : ℚ := 15
  [lat_normalized, lon_normalized, distance_from_transformer, density_score]

/-- The consumption block appended by `_extract_features` (lines 49–54):
the temporal features when ≥ 12 readings are present, otherwise the
`[0] * 15` placeholder (a missing or non-list value takes the same
degraded branch via the `isinstance` guard). -/
def consumption_block (sq : ℚ → ℚ) (ch : Option (List ℚ)) : List ℚ :=
  match ch with
  | some cs => if 12 ≤ cs.length then consumption_features sq cs else List.replicate 15 0
  | none => List.replicate 15 0

/-- `_extract_features` (lines 45–70): the full 30-field vector —
consumption block, then AMI block, then profile block, then geospatial
block. -/
def extract_features (h : String → ℤ) (sq : ℚ → ℚ) (r : CustomerRecord) : List ℚ :=
  consumption_block sq r.consumption_history ++ ami_features r.ami_data ++
    profile_features h r ++ geospatial_features r

/-! ### NTLDetector state (`ntl_detector.py`) -/

/-- A fitted binary classifier, abstracted to the single capability the
detector uses: theft-class probability on a scaled feature row
(`model.predict_proba(x)[1]`); the normal-class column is `1 -` this, per
the binary `predict_proba` contract. -/
structure FittedModel where
  predictTheft : List ℚ → ℚ

/-- The detector's mutable state: the (optionally fitted) scaler, the four
ensemble members keyed by name in dict insertion order (a member is `none`
while its underlying sklearn object is unfitted), the fusion weights, and
the `is_trained` flag. -/
structure NTLState where
  scaler : Option (List ℚ → List ℚ)
  models : List (String × Option FittedModel)
  model_weights : List (String × ℚ)
  is_trained : Bool

/-- The fusion-weight dict of `__init__` (lines 83–88). -/
def initWeights : List (String × ℚ) :=
  [("random_forest", 1/5), ("gradient_boosting", 1/4),
   ("xgboost", 3/10), ("lightgbm", 1/4)]

/-- The state after `__init__` when no saved model file exists: four
unfitted models, an unfitted scaler, `is_trained = False` (the
`_load_model` branch that finds a file belongs to the external persistence
boundary). -/
def initState : NTLState :=
  { scaler := none
  , models := [("random_forest", none), ("gradient_boosting", none),
               ("xgboost", none), ("lightgbm", none)]
  , model_weights := initWeights
  , is_trained := false }

/-- The error conditions raised by the external libraries on the scoring
path: an unfitted scaler / model raises `NotFittedError`, a missing weight
key raises `KeyError`. -/
inductive PredErr
  | scalerNotFitted
  | modelNotFitted
  | weightMissing
deriving DecidableEq

/-- Python `self.model_weights[name]` (a dict lookup). -/
def lookupWeight (ws : List (String × ℚ)) (n : String) : Option ℚ :=
  (ws.find? (fun p => p.1 == n)).map Prod.snd

/-- Lines 170–176 of `predict_single`: the weighted fused theft
probability, `sum(model.predict_proba(x)[0][1] * weight for ...)`,
accumulated left-to-right over the model dict. -/
def fusedTheftProb (s : NTLState) (x : List ℚ) : Except PredErr ℚ :=
  s.models.foldlM (fun acc p =>
    match p.2, lookupWeight s.model_weights p.1 with
    | some f, some w => .ok (acc + f.predictTheft x * w)
    | none, _ => .error .modelNotFitted
    | some _, none => .error .weightMissing) 0

/-- The extract → scale → fuse pipeline of `predict_single`
(lines 163–176), up to the fused probability. -/
def singleScaledFused (h : String → ℤ) (sq : ℚ → ℚ) (s : NTLState)
    (r : CustomerRecord) : Except PredErr ℚ :=
  match s.scaler with
  | none => .error .scalerNotFitted
  | some sc => fusedTheftProb s (sc (extract_features h sq r))

/-- `_identify_theft_patterns` (lines 219–254): the four indicator
strings and the fallback. -/
def indDrop : String := "Consumption dropped >50% vs. historical average"

/-- Indicator string appended by the tamper rule. -/
def indTamper : String := "AMI tamper alerts detected"

/-- Indicator string appended by the low-voltage rule. -/
def indVoltage : String := "Abnormal voltage drop (possible bypass)"

/-- Indicator string appended by the profile-mismatch rule. -/
def indProfile : String := "Residential account with commercial-level consumption"

/-- The generic fallback indicator emitted when no rule fires. -/
def indFallback : String := "Statistical anomaly detected in consumption pattern"

/-- `_identify_theft_patterns` (lines 219–254), translated append by
append: consumption-drop rule, then the two AMI rules (guarded by a truthy
bundle), then the profile-mismatch rule, then the fallback when the list
is still empty. -/
def identify_theft_patterns (r : CustomerRecord) : List String :=
  let consumption := r.consumption_history.getD []
  let indicators : List String := []
  let indicators :=
    if 12 ≤ consumption.length ∧
        listMean (lastN 3 consumption) < listMean (dropLastN 3 consumption) * (1/2)
    then indicators ++ [indDrop] else indicators
  let indicators :=
    match r.ami_data with
    | none => indicators
    | some a =>
      let indicators :=
        if a.tamper_alerts.getD 0 > 0 then indicators ++ [indTamper] else indicators
      if a.voltage_reading.getD 220 < 200 then indicators ++ [indVoltage] else indicators
  let avg_consumption := if consumption ≠ [] then listMean consumption else 0
  let indicators :=
    if r.customer_type = some "residential" ∧ avg_consumption > 1000
    then indicators ++ [indProfile] else indicators
  if indicators = [] then [indFallback] else indicators

/-- `_estimate_monthly_loss` (lines 256–282). -/
def estimate_monthly_loss (r : CustomerRecord) (confidence_score : ℚ) : ℚ :=
  let consumption := r.consumption_history.getD []
  if consumption = [] then 0
  else
    let historical_avg :=
      if 3 < consumption.length then listMean (dropLastN 3 consumption)
      else listMean consumption
    let current_consumption :=
      if 3 ≤ consumption.length then listMean (lastN 3 consumption)
      else consumption.getLastD 0
    let stolen_kwh := max 0 (historical_avg - current_consumption)
    let adjusted_theft := stolen_kwh * (confidence_score / 100)
    adjusted_theft * 10

/-- The risk classification of `predict_single` (lines 184–193). -/
def riskClassify (confidence_score : ℚ) : String × String :=
  if confidence_score ≥ 75 then
    ("High", "Immediate field inspection with legal team standby")
  else if confidence_score ≥ 50 then
    ("Medium", "Schedule inspection within 3 days")
  else
    ("Low", "Monitor for 30 days, flag if pattern continues")

/-- Python `round(x, 2)` (banker's rounding at two decimals). -/
def round2 (x : ℚ) : ℚ :=
  let y := x * 100
  let f : ℤ := ⌊y⌋
  let frac := y - f
  let r : ℤ :=
    if frac < 1/2 then f
    else if frac > 1/2 then f + 1
    else if f % 2 = 0 then f else f + 1
  (r : ℚ) / 100

/-- The per-customer output record of `predict_single`. -/
structure PredictionResult where
  customer_id : String
  confidence_score : ℚ
  estimated_monthly_loss : ℚ
  theft_indicators : List String
  risk_level : String
  recommended_action : String
deriving DecidableEq

/-- `predict_single` (lines 156–202). -/
def predict_single (h : String → ℤ) (sq : ℚ → ℚ) (s : NTLState)
    (r : CustomerRecord) : Except PredErr PredictionResult :=
  match singleScaledFused h sq s r with
  | .error e => .error e
  | .ok fused =>
    let confidence_score := fused * 100
    let theft_indicators := identify_theft_patterns r
    let estimated_loss := estimate_monthly_loss r confidence_score
    let ra := riskClassify confidence_score
    .ok { customer_id := r.customer_id
        , confidence_score := round2 confidence_score
        , estimated_monthly_loss := round2 estimated_loss
        , theft_indicators := theft_indicators
        , risk_level := ra.1
        , recommended_action := ra.2 }

/-- `predict_proba` (lines 338–360): rows of `(prob_normal, prob_theft)`,
built by accumulating each model's weighted column pair into a zero
matrix. -/
def predict_proba (h : String → ℤ) (sq : ℚ → ℚ) (s : NTLState)
    (data : List CustomerRecord) : Except PredErr (List (ℚ × ℚ)) :=
  let X := data.map (extract_features h sq)
  match s.scaler with
  | none => .error .scalerNotFitted
  | some sc =>
    let Xs := X.map sc
    s.models.foldlM (fun acc p =>
      match p.2, lookupWeight s.model_weights p.1 with
      | some f, some w =>
        .ok (List.zipWith
          (fun e x => (e.1 + (1 - f.predictTheft x) * w, e.2 + f.predictTheft x * w))
          acc Xs)
      | none, _ => .error .modelNotFitted
      | some _, none => .error .weightMissing)
      (Xs.map (fun _ => ((0 : ℚ), (0 : ℚ))))

/-- `predict_batch` (lines 204–217): builds an empty prediction list and
returns it (the database query is a TODO in the source). -/
def predict_batch (customer_ids : List String) (date : String) :
    List PredictionResult :=
  let predictions : List PredictionResult := []
  let _ := customer_ids
  let _ := date
  predictions

/-! ### Resampler and training (`train`, lines 107–154) -/

/-- Number of theft labels, `int(labels.sum())`. -/
def minorityCount (labels : List Bool) : ℕ := labels.countP id

/-- Number of honest labels, `len(labels) - minority`. -/
def majorityCount (labels : List Bool) : ℕ := labels.length - minorityCount labels

/-- The `sampling_strategy=0.3` constant passed to SMOTE (line 133). -/
def smote_sampling_strategy : ℚ := 3/10

/-- Lines 130–140 of `train`: SMOTE (an external library call, passed in
as `smote` with the sampling-strategy constant) is invoked only when
`majority / (minority + 1) > 10` (float division); otherwise features and
labels pass through unchanged. -/
def resample
    (smote : ℚ → List (List ℚ) → List Bool → List (List ℚ) × List Bool)
    (X : List (List ℚ)) (labels : List Bool) : List (List ℚ) × List Bool :=
  if ((majorityCount labels : ℚ) / ((minorityCount labels : ℚ) + 1)) > 10
  then smote smote_sampling_strategy X labels
  else (X, labels)

/-- The per-model fitting loop of `train` (lines 146–148): models are
refitted in place, in dict order; the first fit that raises stops the
loop, leaving that model and all later ones untouched. Returns the model
list after the loop together with the raised error, if any. -/
def fitModelsLoop (fit : String → Except String FittedModel) :
    List (String × Option FittedModel) →
    List (String × Option FittedModel) × Option String
  | [] => ([], none)
  | (n, m) :: rest =>
    match fit n with
    | .ok f =>
      let out := fitModelsLoop fit rest
      ((n, some f) :: out.1, out.2)
    | .error e => ((n, m) :: rest, some e)

/-- The external operations `train` calls: `StandardScaler.fit_transform`
(returns the fitted per-row transform) and the per-model `fit` (which may
raise), plus the SMOTE oversampler. -/
structure TrainEnv where
  fitScaler : List (List ℚ) → (List ℚ → List ℚ)
  fitModel : String → List (List ℚ) → List Bool → Except String FittedModel
  smote : ℚ → List (List ℚ) → List Bool → List (List ℚ) × List Bool

/-- `train` (lines 107–154) as a state transition: feature-engineer the
data, gate SMOTE, refit the scaler in place, refit each model in place in
order, and set `is_trained` only after every fit succeeded (the subsequent
`_save_model` is the external persistence boundary). The second component
is the exception that aborted the run, if any; the first is the detector
state as left behind by the call. -/
def train (h : String → ℤ) (sq : ℚ → ℚ) (env : TrainEnv) (s : NTLState)
    (data : List CustomerRecord) (labels : List Bool) : NTLState × Option String :=
  let X := data.map (extract_features h sq)
  let resampled := resample env.smote X labels
  let sc := env.fitScaler resampled.1
  let Xs := resampled.1.map sc
  let s1 := { s with scaler := some sc }
  let fitted := fitModelsLoop (fun n => env.fitModel n Xs resampled.2) s1.models
  let s2 := { s1 with models := fitted.1 }
  match fitted.2 with
  | some e => (s2, some e)
  | none => ({ s2 with is_trained := true }, none)

/-! ### App layer (`app.py` lines 91–111) and the hotlist sort
(`utils/sample_data.py` lines 73–77) -/

/-- The sort key `confidence_score * estimated_monthly_loss`. -/
def priorityKey (p : PredictionResult) : ℚ :=
  p.confidence_score * p.estimated_monthly_loss

/-- Descending order on the priority key (the effect of
`sort(key=..., reverse=True)`). -/
def priorityGE (a b : PredictionResult) : Prop := priorityKey b ≤ priorityKey a

instance : DecidableRel priorityGE :=
  fun a b => inferInstanceAs (Decidable (priorityKey b ≤ priorityKey a))

instance : IsTotal PredictionResult priorityGE :=
  ⟨fun a b => le_total (priorityKey b) (priorityKey a)⟩

instance : IsTrans PredictionResult priorityGE :=
  ⟨fun _ _ _ h1 h2 => le_trans h2 h1⟩

/-- `predictions.sort(key=lambda x: confidence * loss, reverse=True)`:
a stable sort into descending priority order. -/
def hotlistSort (l : List PredictionResult) : List PredictionResult :=
  List.insertionSort priorityGE l

/-- The `/predict/batch` endpoint (app.py lines 91–111): the detector's
batch prediction, sorted descending by priority. -/
def predict_batch_endpoint (ids : List String) (date : String) :
    List PredictionResult :=
  hotlistSort (predict_batch ids date)

/-! ### Specification-side restatement of the indicator rules (for
comparison with `identify_theft_patterns`) -/

/-- Rule 1 of the indicator analysis: recent-3 average below half the
historical average (only with ≥ 12 readings). -/
def ruleDrop (r : CustomerRecord) : Option String :=
  let consumption := r.consumption_history.getD []
  if 12 ≤ consumption.length ∧
      listMean (lastN 3 consumption) < listMean (dropLastN 3 consumption) * (1/2)
  then some indDrop else none

/-- Rule 2: positive tamper-alert count on a present AMI bundle. -/
def ruleTamper (r : CustomerRecord) : Option String :=
  match r.ami_data with
  | none => none
  | some a => if a.tamper_alerts.getD 0 > 0 then some indTamper else none

/-- Rule 3: voltage reading under the 200 V threshold on a present AMI
bundle. -/
def ruleVoltage (r : CustomerRecord) : Option String :=
  match r.ami_data with
  | none => none
  | some a => if a.voltage_reading.getD 220 < 200 then some indVoltage else none

/-- Rule 4: residential class with average consumption above 1000. -/
def ruleProfile (r : CustomerRecord) : Option String :=
  let consumption := r.consumption_history.getD []
  let avg := if consumption ≠ [] then listMean consumption else 0
  if r.customer_type = some "residential" ∧ avg > 1000 then some indProfile else none

/-- The four rules evaluated in order, each contributing at most one
indicator. -/
def firedIndicators (r : CustomerRecord) : List String :=
  (ruleDrop r).toList ++ (ruleTamper r).toList ++
    (ruleVoltage r).toList ++ (ruleProfile r).toList

/-! ### Abbreviations for the intermediate values of `train` -/

/-- The (features, labels) pair after the SMOTE gate inside `train`
(lines 117–140). -/
def trainResampled (h : String → ℤ) (sq : ℚ → ℚ) (env : TrainEnv)
    (data : List CustomerRecord) (labels : List Bool) :
    List (List ℚ) × List Bool :=
  resample env.smote (data.map (extract_features h sq)) labels

/-- The scaled feature matrix inside `train` (line 143). -/
def trainScaledX (h : String → ℤ) (sq : ℚ → ℚ) (env : TrainEnv)
    (data : List CustomerRecord) (labels : List Bool) : List (List ℚ) :=
  (trainResampled h sq env data labels).1.map
    (env.fitScaler (trainResampled h sq env data labels).1)

/-! ### Concrete instances used by witnesses and counterexamples -/

/-- A concrete stand-in for Python's string hash. -/
def hashZero : String → ℤ := fun _ => 0

/-- A concrete stand-in for the floating-point square root. -/
def sqrtZero : ℚ → ℚ := fun _ => 0

/-- The identity feature scaler. -/
def idScaler : List ℚ → List ℚ := fun v => v

/-- A classifier reporting a constant theft probability. -/
def constModel (q : ℚ) : FittedModel := ⟨fun _ => q⟩

/-- A minimal customer record: no consumption history, no AMI bundle,
all optional profile fields absent. -/
def rec0 : CustomerRecord :=
  { customer_id := "CUST-0000001", consumption_history := none, ami_data := none
  , customer_type := none, business_category := none
  , latitude := none, longitude := none, transformer_id := "TX-001" }

/-- A record with a constant 12-month consumption history of 100 units. -/
def recConst : CustomerRecord :=
  { customer_id := "CUST-0000002"
  , consumption_history := some (List.replicate 12 100), ami_data := none
  , customer_type := none, business_category := none
  , latitude := none, longitude := none, transformer_id := "TX-002" }

/-- A fully trained detector state: identity scaler, four fitted models
each reporting theft probability 1/2, the standard fusion weights. -/
def trainedState : NTLState :=
  { scaler := some idScaler
  , models := [("random_forest", some (constModel (1/2))),
               ("gradient_boosting", some (constModel (1/2))),
               ("xgboost", some (constModel (1/2))),
               ("lightgbm", some (constModel (1/2)))]
  , model_weights := initWeights
  , is_trained := true }

/-- A concrete SMOTE stand-in returning the empty dataset (its output is
distinguishable from any nonempty pass-through). -/
def smoteNull : ℚ → List (List ℚ) → List Bool → List (List ℚ) × List Bool :=
  fun _ _ _ => ([], [])

/-- Labels with 1 theft and 11 honest customers: majority:minority ratio
11:1, which exceeds 10:1. -/
def labels11 : List Bool := true :: List.replicate 11 false

/-- Twelve one-column feature rows matching `labels11`. -/
def X12 : List (List ℚ) := List.replicate 12 [0]

/-- A training environment whose `gradient_boosting` fit (the second
model in dict order) raises while `random_forest` succeeds. -/
def envFail : TrainEnv :=
  { fitScaler := fun _ => idScaler
  , fitModel := fun n _ _ =>
      if n = "random_forest" then .ok (constModel 0) else .error "boom"
  , smote := smoteNull }

/-- The ranking example: confidence 90, estimated loss 1000
(priority 90000). -/
def predA : PredictionResult :=
  { customer_id := "CUST-A", confidence_score := 90
  , estimated_monthly_loss := 1000, theft_indicators := [indFallback]
  , risk_level := "High"
  , recommended_action := "Immediate field inspection with legal team standby" }

/-- The ranking example: confidence 60, estimated loss 5000
(priority 300000). -/
def predB : PredictionResult :=
  { customer_id := "CUST-B", confidence_score := 60
  , estimated_monthly_loss := 5000, theft_indicators := [indFallback]
  , risk_level := "Medium"
  , recommended_action := "Schedule inspection within 3 days" }

/-! ### Block-length lemmas -/

/-- The temporal block always has 15 fields. -/
theorem consumption_features_length (sq : ℚ → ℚ) (xs : List ℚ) :
    (consumption_features sq xs).length = 15 := rfl

/-- The degraded-or-not consumption block always has 15 fields. -/
theorem consumption_block_length (sq : ℚ → ℚ) (ch : Option (List ℚ)) :
    (consumption_block sq ch).length = 15 := by
  cases ch with
  | none => rfl
  | some cs =>
    simp only [consumption_block]
    split
    · rfl
    · rfl

/-- The AMI block always has 6 fields. -/
theorem ami_features_length (ami : Option AmiData) :
    (ami_features ami).length = 6 := by
  cases ami <;> rfl

/-- The profile block always has 5 fields. -/
theorem profile_features_length (h : String → ℤ) (r : CustomerRecord) :
    (profile_features h r).length = 5 := rfl

/-- The geospatial block always has 4 fields. -/
theorem geospatial_features_length (r : CustomerRecord) :
    (geospatial_features r).length = 4 := rfl

/-! ### C1 — telemetry defaults when the AMI bundle is absent -/

/-- C1 (counterexample): for a record with no AMI bundle the telemetry
block is `[0, 220, 220, 220, 0.95, 0]`, not the claimed
`[0, 220, 0.95·220, 1.05·220, 0.95, 0]` — the default voltage min/max
equal the nominal voltage instead of ±5% of it. -/
theorem ami_default_counterexample :
    rec0.ami_data = none ∧
    ((extract_features hashZero sqrtZero rec0).drop 15).take 6 ≠
      [0, 220, (19/20) * 220, (21/20) * 220, 19/20, 0] := by
  have hx : ((extract_features hashZero sqrtZero rec0).drop 15).take 6 =
      [0, 220, 220, 220, 19/20, 0] := by
    norm_num [extract_features, consumption_block, rec0, ami_features,
      profile_features, geospatial_features, hashZero]
  refine ⟨rfl, ?_⟩
  rw [hx]
  intro hcontra
  simp only [List.cons.injEq] at hcontra
  exact absurd hcontra.2.2.1 (by norm_num)

/-- C1 (amended): when the AMI bundle is absent, the telemetry block of
the extracted feature vector is exactly `[0, 220, 220, 220, 0.95, 0]` —
tamper count 0, voltage average, min and max all equal to the nominal
220 V, power factor 0.95, phase imbalance 0. -/
theorem ami_default_block (h : String → ℤ) (sq : ℚ → ℚ) (r : CustomerRecord)
    (hami : r.ami_data = none) :
    ((extract_features h sq r).drop 15).take 6 = [0, 220, 220, 220, 19/20, 0] := by
  unfold extract_features
  rw [hami, List.append_assoc, List.append_assoc,
    show (15 : ℕ) = (consumption_block sq r.consumption_history).length from
      (consumption_block_length sq r.consumption_history).symm,
    List.drop_left,
    show (6 : ℕ) = (ami_features none).length from rfl,
    List.take_left]
  rfl

/-- C1 witness: the amended default telemetry block at a concrete record
with no AMI bundle. -/
theorem ami_default_block_witness :
    ((extract_features hashZero sqrtZero rec0).drop 15).take 6 =
      [0, 220, 220, 220, 19/20, 0] :=
  ami_default_block hashZero sqrtZero rec0 rfl

/-! ### C8 — degraded consumption block for short histories -/

/-- C8: whenever the consumption history is absent (or shorter than 12
readings), the 15-field consumption block of the feature vector is
exactly 15 zeros, and the full vector still has its 30 fields (extraction
is total — no error path exists in the embedding). -/
theorem short_consumption_zero_block (h : String → ℤ) (sq : ℚ → ℚ)
    (r : CustomerRecord)
    (hshort : ∀ cs, r.consumption_history = some cs → cs.length < 12) :
    (extract_features h sq r).take 15 = List.replicate 15 0 ∧
    (extract_features h sq r).length = 30 := by
  have hblock : consumption_block sq r.consumption_history = List.replicate 15 0 := by
    cases hch : r.consumption_history with
    | none => rfl
    | some cs =>
      have hlt := hshort cs hch
      simp only [consumption_block]
      rw [if_neg (by omega)]
  constructor
  · unfold extract_features
    rw [List.append_assoc, List.append_assoc,
      show (15 : ℕ) = (consumption_block sq r.consumption_history).length from
        (consumption_block_length sq r.consumption_history).symm,
      List.take_left, hblock]
    simp
  · unfold extract_features
    simp [consumption_block_length, ami_features_length, profile_features_length,
      geospatial_features_length]

/-- C8 witness: a record with a missing consumption history yields the
all-zero consumption block and a 30-field vector. -/
theorem short_consumption_zero_block_witness :
    (extract_features hashZero sqrtZero rec0).take 15 = List.replicate 15 0 ∧
    (extract_features hashZero sqrtZero rec0).length = 30 :=
  short_consumption_zero_block hashZero sqrtZero rec0
    (by intro cs hcs; simp [rec0] at hcs)

/-! ### C2 — the SMOTE activation gate -/

/-- C2 (counterexample): with 1 theft and 11 honest labels the
majority:minority ratio is 11:1 > 10:1, yet the resampler passes the data
through unchanged (its gate divides by `minority + 1`, so 11/2 ≤ 10), and
this pass-through differs from what the SMOTE branch would have
produced. -/
theorem resample_gate_counterexample :
    10 < (majorityCount labels11 : ℚ) / (minorityCount labels11 : ℚ) ∧
    resample smoteNull X12 labels11 = (X12, labels11) ∧
    smoteNull smote_sampling_strategy X12 labels11 ≠ (X12, labels11) := by
  have hmin : minorityCount labels11 = 1 := by decide
  have hmaj : majorityCount labels11 = 11 := by decide
  refine ⟨?_, ?_, ?_⟩
  · rw [hmin, hmaj]; norm_num
  · unfold resample
    rw [if_neg]
    rw [hmin, hmaj]
    norm_num
  · intro hcontra
    have h1 := congrArg Prod.fst hcontra
    simp [smoteNull, X12] at h1

/-- C2 (amended): the resampler invokes SMOTE (with the 0.3
sampling-strategy target) exactly when `majority > 10 × (minority + 1)` —
the gate divides by the minority count **plus one** — and returns the
features and labels unchanged whenever `majority ≤ 10 × (minority + 1)`. -/
theorem resample_gate
    (smote : ℚ → List (List ℚ) → List Bool → List (List ℚ) × List Bool)
    (X : List (List ℚ)) (labels : List Bool) :
    (10 * (minorityCount labels + 1) < majorityCount labels →
      resample smote X labels = smote smote_sampling_strategy X labels) ∧
    (majorityCount labels ≤ 10 * (minorityCount labels + 1) →
      resample smote X labels = (X, labels)) := by
  have hiff : ((majorityCount labels : ℚ) / ((minorityCount labels : ℚ) + 1) > 10) ↔
      10 * (minorityCount labels + 1) < majorityCount labels := by
    rw [gt_iff_lt, lt_div_iff₀ (by positivity)]
    constructor
    · intro hq; exact_mod_cast hq
    · intro hn; exact_mod_cast hn
  constructor
  · intro hlt
    unfold resample
    rw [if_pos (hiff.mpr hlt)]
  · intro hle
    unfold resample
    rw [if_neg]
    rw [hiff]
    omega

/-- C2 witness: the pass-through branch at ratio 11:1 (minority 1,
majority 11) and the SMOTE branch at minority 0, majority 30. -/
theorem resample_gate_witness :
    resample smoteNull X12 labels11 = (X12, labels11) ∧
    resample smoteNull ([] : List (List ℚ)) (List.replicate 30 false) =
      smoteNull smote_sampling_strategy [] (List.replicate 30 false) :=
  ⟨(resample_gate smoteNull X12 labels11).2 (by decide),
   (resample_gate smoteNull [] (List.replicate 30 false)).1 (by decide)⟩

/-! ### C5 — scoring before training or loading fails -/

/-- C5: on the freshly constructed detector state (no model trained, none
loaded), `predict_single` fails with the not-fitted configuration error
for every record — it never returns a `PredictionResult`. -/
theorem predict_single_untrained_errors (h : String → ℤ) (sq : ℚ → ℚ)
    (r : CustomerRecord) :
    predict_single h sq initState r = .error PredErr.scalerNotFitted := rfl

/-! ### C6 — the monthly-loss estimate -/

/-- C6: the estimated monthly loss is 0 without consumption history, and
otherwise equals `max 0 (historical − current) · (confidence/100) · 10`,
with `historical` the mean of all-but-the-last-3 readings (full series
when ≤ 3) and `current` the mean of the last 3 (last reading when < 3);
for a nonnegative confidence the estimate is never negative. -/
theorem estimate_loss_spec (r : CustomerRecord) (c : ℚ) :
    (r.consumption_history.getD [] = [] → estimate_monthly_loss r c = 0) ∧
    (∀ cs, r.consumption_history = some cs → cs ≠ [] →
      estimate_monthly_loss r c =
        max 0 ((if 3 < cs.length then listMean (dropLastN 3 cs) else listMean cs) -
               (if 3 ≤ cs.length then listMean (lastN 3 cs) else cs.getLastD 0)) *
          (c / 100) * 10) ∧
    (0 ≤ c → 0 ≤ estimate_monthly_loss r c) := by
  refine ⟨?_, ?_, ?_⟩
  · intro hempty
    simp [estimate_monthly_loss, hempty]
  · intro cs hcs hne
    simp [estimate_monthly_loss, hcs, hne]
  · intro hc
    simp only [estimate_monthly_loss]
    split
    · exact le_refl 0
    · exact mul_nonneg (mul_nonneg (le_max_left 0 _) (by positivity)) (by norm_num)

/-- C6 witness: for a constant 12-month history (non-decreasing
consumption) the estimate at confidence 50 is nonnegative and given by
the documented formula, which evaluates to 0. -/
theorem estimate_loss_spec_witness :
    0 ≤ estimate_monthly_loss recConst 50 ∧
    estimate_monthly_loss recConst 50 =
      max 0 (listMean (dropLastN 3 (List.replicate 12 100)) -
             listMean (lastN 3 (List.replicate 12 100))) * (50 / 100) * 10 := by
  refine ⟨(estimate_loss_spec recConst 50).2.2 (by norm_num), ?_⟩
  have h2 := (estimate_loss_spec recConst 50).2.1 (List.replicate 12 100) rfl (by simp)
  simpa using h2

/-! ### C9 — hotlist ranking by confidence × loss -/

/-- C9: every list returned by the batch prediction endpoint is sorted in
descending order of `confidence_score × estimated_monthly_loss`, and the
sort it applies places a (confidence 60, loss 5000) prediction before a
(confidence 90, loss 1000) one, since 300000 > 90000. -/
theorem hotlist_sorted_by_priority :
    (∀ (ids : List String) (date : String),
      List.Sorted priorityGE (predict_batch_endpoint ids date)) ∧
    hotlistSort [predA, predB] = [predB, predA] := by
  constructor
  · intro ids date
    exact List.sorted_insertionSort priorityGE (predict_batch ids date)
  · show List.insertionSort priorityGE [predA, predB] = [predB, predA]
    have hAB : ¬ priorityGE predA predB := by
      unfold priorityGE priorityKey predA predB
      norm_num
    simp [List.insertionSort, List.orderedInsert, hAB]

/-! ### C10 — the batch prediction stub -/

/-- C10: the detector's batch prediction returns the empty list for every
identifier list and date, so the batch hotlist endpoint built on it also
returns the empty list. -/
theorem predict_batch_stub_empty :
    ∀ (ids : List String) (date : String),
      predict_batch ids date = [] ∧ predict_batch_endpoint ids date = [] :=
  fun _ _ => ⟨rfl, rfl⟩

/-! ### C7 — indicator analysis is ordered and never empty -/

/-- Appending a conditional singleton is appending the conditional
option's list form. -/
theorem ite_append_singleton {α : Type} (c : Prop) [Decidable c]
    (l : List α) (x : α) :
    (if c then l ++ [x] else l) = l ++ (if c then some x else none).toList := by
  split_ifs <;> simp

/-- C7: the indicator analysis never returns an empty list; it equals the
ordered concatenation of the four rules (each contributing at most one
indicator, in rule order), with the single generic fallback indicator
substituted exactly when no rule fires. -/
theorem theft_patterns_nonempty_ordered (r : CustomerRecord) :
    identify_theft_patterns r ≠ [] ∧
    identify_theft_patterns r =
      (if firedIndicators r = [] then [indFallback] else firedIndicators r) := by
  have hmain : identify_theft_patterns r =
      (if firedIndicators r = [] then [indFallback] else firedIndicators r) := by
    cases hami : r.ami_data with
    | none =>
      simp only [identify_theft_patterns, firedIndicators, ruleDrop, ruleTamper,
        ruleVoltage, ruleProfile, hami]
      rw [ite_append_singleton, ite_append_singleton]
      simp [List.append_assoc]
    | some a =>
      simp only [identify_theft_patterns, firedIndicators, ruleDrop, ruleTamper,
        ruleVoltage, ruleProfile, hami]
      rw [ite_append_singleton, ite_append_singleton, ite_append_singleton,
        ite_append_singleton]
      simp [List.append_assoc]
  refine ⟨?_, hmain⟩
  rw [hmain]
  split_ifs with hf
  · simp
  · exact hf

/-! ### C3 — what a failed training run leaves behind -/

/-- Unfolding `train` against the named intermediates. -/
theorem train_unfold (h : String → ℤ) (sq : ℚ → ℚ) (env : TrainEnv)
    (s : NTLState) (data : List CustomerRecord) (labels : List Bool) :
    train h sq env s data labels =
      (let fitted := fitModelsLoop
          (fun n => env.fitModel n (trainScaledX h sq env data labels)
            (trainResampled h sq env data labels).2) s.models
       match fitted.2 with
       | some e =>
         ({ s with
            scaler := some (env.fitScaler (trainResampled h sq env data labels).1)
            models := fitted.1 }, some e)
       | none =>
         ({ s with
            scaler := some (env.fitScaler (trainResampled h sq env data labels).1)
            models := fitted.1, is_trained := true }, none)) := rfl

/-- When the fitting loop raises, the model list splits at the first
failing index: models before it were refitted, the failing one and all
later ones keep their previous values. -/
theorem fitModelsLoop_error (fit : String → Except String FittedModel) :
    ∀ (ms : List (String × Option FittedModel)) (e : String),
      (fitModelsLoop fit ms).2 = some e →
      ∃ k, ∃ hk : k < ms.length,
        (fitModelsLoop fit ms).1 =
          (ms.take k).map (fun p => (p.1, (fit p.1).toOption)) ++ ms.drop k ∧
        fit (ms.get ⟨k, hk⟩).1 = .error e ∧
        ∀ j (hj : j < k), ∃ f, fit (ms.get ⟨j, lt_trans hj hk⟩).1 = .ok f := by
  intro ms
  induction ms with
  | nil => intro e he; simp [fitModelsLoop] at he
  | cons p rest ih =>
    intro e he
    obtain ⟨n, m⟩ := p
    cases hfit : fit n with
    | error e2 =>
      have he2 : e2 = e := by
        simp only [fitModelsLoop, hfit] at he
        exact Option.some_injective _ he
      refine ⟨0, by simp, ?_, ?_, ?_⟩
      · simp [fitModelsLoop, hfit]
      · simpa [he2] using hfit
      · intro j hj; omega
    | ok f =>
      have htail : (fitModelsLoop fit rest).2 = some e := by
        simp only [fitModelsLoop, hfit] at he
        exact he
      obtain ⟨k, hk, hmodels, hfail, hpre⟩ := ih e htail
      refine ⟨k + 1, by simpa using Nat.succ_lt_succ hk, ?_, ?_, ?_⟩
      · simp only [fitModelsLoop, hfit, List.take_succ_cons, List.drop_succ_cons,
          List.map_cons, List.cons_append, hmodels, hfit, Except.toOption]
      · simpa using hfail
      · intro j hj
        cases j with
        | zero => exact ⟨f, by simpa using hfit⟩
        | succ j2 =>
          have hj2 : j2 < k := by omega
          obtain ⟨f2, hf2⟩ := hpre j2 hj2
          exact ⟨f2, by simpa using hf2⟩

/-- C3 (counterexample): with an environment whose second model fit
raises, a training run on the fresh detector aborts with the error, yet
the detector state is not the state before the call — the scaler has
already been refitted in place. -/
theorem train_not_atomic_counterexample :
    (train hashZero sqrtZero envFail initState [] []).2 = some "boom" ∧
    (train hashZero sqrtZero envFail initState [] []).1 ≠ initState := by
  constructor
  · rfl
  · intro hcontra
    have h3 : (train hashZero sqrtZero envFail initState [] []).1.scaler =
        some idScaler := rfl
    rw [hcontra] at h3
    simp [initState] at h3

/-- C3 (amended): a single-model fit failure aborts the run with the
error and leaves `is_trained` and the fusion weights at their previous
values, but the state is **not** untouched: the scaler has been refitted
on the resampled data, every model before the first failing one has been
refitted in place, and the failing model and all later ones keep their
previous fitted state. -/
theorem train_failure_partial_state (h : String → ℤ) (sq : ℚ → ℚ)
    (env : TrainEnv) (s : NTLState) (data : List CustomerRecord)
    (labels : List Bool) (e : String)
    (herr : (train h sq env s data labels).2 = some e) :
    (train h sq env s data labels).1.is_trained = s.is_trained ∧
    (train h sq env s data labels).1.model_weights = s.model_weights ∧
    (train h sq env s data labels).1.scaler =
      some (env.fitScaler (trainResampled h sq env data labels).1) ∧
    ∃ k, ∃ hk : k < s.models.length,
      (train h sq env s data labels).1.models =
        (s.models.take k).map (fun p =>
          (p.1, (env.fitModel p.1 (trainScaledX h sq env data labels)
            (trainResampled h sq env data labels).2).toOption)) ++
          s.models.drop k ∧
      env.fitModel (s.models.get ⟨k, hk⟩).1 (trainScaledX h sq env data labels)
        (trainResampled h sq env data labels).2 = .error e ∧
      ∀ j (hj : j < k), ∃ f,
        env.fitModel (s.models.get ⟨j, lt_trans hj hk⟩).1
          (trainScaledX h sq env data labels)
          (trainResampled h sq env data labels).2 = .ok f := by
  rw [train_unfold] at herr ⊢
  cases hloop : (fitModelsLoop
      (fun n => env.fitModel n (trainScaledX h sq env data labels)
        (trainResampled h sq env data labels).2) s.models).2 with
  | none =>
    simp only [hloop] at herr
    exact Option.noConfusion herr
  | some e2 =>
    simp only [hloop] at herr ⊢
    have he2 : e2 = e := Option.some_injective _ herr
    subst he2
    refine ⟨trivial, trivial, trivial, ?_⟩
    exact fitModelsLoop_error _ s.models e2 hloop

/-- C3 witness: applying the amended theorem to the concrete failing run
shows the fresh detector keeps `is_trained = false` and its weights. -/
theorem train_failure_partial_state_witness :
    (train hashZero sqrtZero envFail initState [] []).1.is_trained =
      initState.is_trained ∧
    (train hashZero sqrtZero envFail initState [] []).1.model_weights =
      initState.model_weights := by
  have hmain := train_failure_partial_state hashZero sqrtZero envFail initState
    [] [] "boom" rfl
  exact ⟨hmain.1, hmain.2.1⟩

/-! ### C4 — batch scoring agrees with single scoring -/

/-- Success values pass straight through the Except bind. -/
theorem except_bind_ok {ε α β : Type} (a : α) (f : α → Except ε β) :
    (Except.ok a >>= f) = f a := rfl

/-- `pure` of the Except monad is `Except.ok`. -/
theorem except_pure_eq {ε α : Type} (a : α) :
    (pure a : Except ε α) = Except.ok a := rfl

/-- The accumulating model loop of `predict_proba`, restricted to row `i`,
is exactly the scalar accumulation of `fusedTheftProb` on that row: if the
batch fold succeeds, the single fold started from row `i` of the
accumulator succeeds with row `i` of the batch output. -/
theorem batch_fold_single (ws : List (String × ℚ)) (Xs : List (List ℚ)) :
    ∀ (ms : List (String × Option FittedModel)) (acc out : List (ℚ × ℚ)),
      acc.length = Xs.length →
      List.foldlM (fun acc2 p =>
        match p.2, lookupWeight ws p.1 with
        | some f, some w => Except.ok (List.zipWith
            (fun (e : ℚ × ℚ) (x : List ℚ) => (e.1 + (1 - f.predictTheft x) * w,
                         e.2 + f.predictTheft x * w)) acc2 Xs)
        | none, _ => Except.error PredErr.modelNotFitted
        | some _, none => Except.error PredErr.weightMissing) acc ms = .ok out →
      out.length = Xs.length ∧
      ∀ i (hi : i < Xs.length) (ha : i < acc.length) (ho : i < out.length),
        List.foldlM (fun acc2 p =>
          match p.2, lookupWeight ws p.1 with
          | some f, some w => Except.ok (acc2 + f.predictTheft (Xs.get ⟨i, hi⟩) * w)
          | none, _ => Except.error PredErr.modelNotFitted
          | some _, none => Except.error PredErr.weightMissing)
          ((acc.get ⟨i, ha⟩).2) ms = .ok ((out.get ⟨i, ho⟩).2) := by
  intro ms
  induction ms with
  | nil =>
    intro acc out hlen hfold
    have hacc : acc = out := by simpa [except_pure_eq] using hfold
    subst hacc
    exact ⟨hlen, fun i hi ha ho => by simp [except_pure_eq]⟩
  | cons p rest ih =>
    intro acc out hlen hfold
    rw [List.foldlM_cons] at hfold
    obtain ⟨n, mo⟩ := p
    cases mo with
    | none => exact Except.noConfusion hfold
    | some f =>
      cases hw : lookupWeight ws n with
      | none =>
        simp only [hw] at hfold
        exact Except.noConfusion hfold
      | some w =>
        simp only [hw] at hfold
        have hlen2 : (List.zipWith
            (fun (e : ℚ × ℚ) (x : List ℚ) => (e.1 + (1 - f.predictTheft x) * w,
                         e.2 + f.predictTheft x * w)) acc Xs).length = Xs.length := by
          simp [hlen]
        obtain ⟨holen, hsingle⟩ := ih _ out hlen2 hfold
        refine ⟨holen, ?_⟩
        intro i hi ha ho
        rw [List.foldlM_cons]
        simp only [hw]
        have hz : i < (List.zipWith
            (fun (e : ℚ × ℚ) (x : List ℚ) => (e.1 + (1 - f.predictTheft x) * w,
                         e.2 + f.predictTheft x * w)) acc Xs).length := by
          rw [hlen2]; exact hi
        have hstep := hsingle i hi hz ho
        have hget : ((List.zipWith
            (fun (e : ℚ × ℚ) (x : List ℚ) => (e.1 + (1 - f.predictTheft x) * w,
                         e.2 + f.predictTheft x * w)) acc Xs).get ⟨i, hz⟩).2 =
            (acc.get ⟨i, ha⟩).2 + f.predictTheft (Xs.get ⟨i, hi⟩) * w := by
          simp [List.get_eq_getElem, List.getElem_zipWith]
        rw [hget] at hstep
        exact hstep

/-- C4: whenever the batch scoring path `predict_proba` succeeds on a
batch of records, its theft-probability column agrees record by record
with the fused probability computed by the single-record pipeline of
`predict_single` (same models, same weights, same scaling). -/
theorem predict_proba_matches_single (h : String → ℤ) (sq : ℚ → ℚ)
    (s : NTLState) (data : List CustomerRecord) (ps : List (ℚ × ℚ))
    (hne : data ≠ [])
    (hok : predict_proba h sq s data = .ok ps) :
    ps.length = data.length ∧
    ∀ i (hi : i < data.length) (hp : i < ps.length),
      singleScaledFused h sq s (data.get ⟨i, hi⟩) = .ok ((ps.get ⟨i, hp⟩).2) := by
  cases hsc : s.scaler with
  | none =>
    simp only [predict_proba, hsc] at hok
    exact Except.noConfusion hok
  | some sc =>
    simp only [predict_proba, hsc] at hok
    have hlen0 : (((data.map (extract_features h sq)).map sc).map
        (fun _ => ((0 : ℚ), (0 : ℚ)))).length =
        ((data.map (extract_features h sq)).map sc).length := by simp
    obtain ⟨holen, hsingle⟩ :=
      batch_fold_single s.model_weights ((data.map (extract_features h sq)).map sc)
        s.models _ ps hlen0 hok
    constructor
    · simpa using holen
    · intro i hi hp
      have hiX : i < ((data.map (extract_features h sq)).map sc).length := by
        simpa using hi
      have hiacc : i < (((data.map (extract_features h sq)).map sc).map
          (fun _ => ((0 : ℚ), (0 : ℚ)))).length := by simpa using hi
      have hs := hsingle i hiX hiacc hp
      simp only [List.get_eq_getElem, List.getElem_map] at hs
      rw [singleScaledFused, hsc]
      exact hs

/-- C4 witness: on a concrete trained state (four constant models with
theft probability 1/2 and the standard weights) and a one-record batch,
the batch theft probability and the single fused probability are both
1/2. -/
theorem predict_proba_matches_single_witness :
    singleScaledFused hashZero sqrtZero trainedState rec0 = .ok (1/2) := by
  have hok : predict_proba hashZero sqrtZero trainedState [rec0] =
      .ok [((1 : ℚ)/2, (1 : ℚ)/2)] := by
    simp [predict_proba, trainedState, initWeights, lookupWeight, constModel,
      idScaler, List.foldlM, except_bind_ok, except_pure_eq]
    norm_num
  have hmain := predict_proba_matches_single hashZero sqrtZero trainedState
    [rec0] [((1 : ℚ)/2, (1 : ℚ)/2)] (by simp) hok
  simpa using hmain.2 0 (by simp) (by simp)
